import Mathlib

/-!
Verification of the symptom-analysis and practitioner-lookup logic of the
Emerald Health demo application.

The embedding models, at the level of character lists:
* the JavaScript string operations used by `analyzeSymptoms` in
  `src/lib/ai-helpers.ts` (split on three dashes, `trim()`, `toLowerCase()`,
  `includes(...)`), with ASCII case mapping;
* the behaviour of `JSON.parse` (ECMA-404 grammar; numbers are kept as raw
  tokens since no numeric value is ever inspected by the program; `\uXXXX`
  escapes are decoded, surrogate pairs combined, lone surrogates rejected
  since Lean characters are scalar values);
* the destructuring `const { isSerious, suggestImmediateAction } = JSON.parse(...)`
  including its JavaScript corner cases (parsing `null` throws a TypeError,
  any other parsed value yields the property value or `undefined`);
* the practitioner dataset and lookup of `src/ai/flows/find-practitioners.ts`;
* the module-initialisation API-key check and the request content passed to
  the generation client.

`undefined` is modelled by `Option`; a JavaScript value that can only be a
JSON-derived value or `undefined` is `Option Json`.
-/

namespace EmeraldHealth

/-- JSON values as produced by `JSON.parse`.  Numeric tokens are kept raw:
the program never reads a numeric value, only whether a field is a boolean. -/
inductive Json where
  | null : Json
  | bool (b : Bool) : Json
  | num (raw : List Char) : Json
  | str (s : List Char) : Json
  | arr (elems : List Json) : Json
  | obj (fields : List (List Char × Json)) : Json

/-- JSON insignificant whitespace (ECMA-404): space, tab, line feed, carriage return. -/
def isJsonWs (c : Char) : Bool :=
  c = ' ' || c = '\t' || c = '\n' || c = '\r'

/-- Drop leading JSON whitespace. -/
def skipWs (s : List Char) : List Char := s.dropWhile isJsonWs

/-- Value of a hexadecimal digit. -/
def hexVal (c : Char) : Option Nat :=
  if '0' ≤ c ∧ c ≤ '9' then some (c.toNat - 48)
  else if 'a' ≤ c ∧ c ≤ 'f' then some (c.toNat - 87)
  else if 'A' ≤ c ∧ c ≤ 'F' then some (c.toNat - 55)
  else none

/-- Decode the four hex digits of a `\uXXXX` escape. -/
def hex4 (a b c d : Char) : Option Nat := do
  let va ← hexVal a
  let vb ← hexVal b
  let vc ← hexVal c
  let vd ← hexVal d
  some (va * 4096 + vb * 256 + vc * 16 + vd)

/-- Parse the body of a JSON string after the opening quote, returning the
decoded characters and the input remaining after the closing quote.
Mirrors `JSON.parse`: unescaped control characters are rejected, the escapes
`\" \\ \/ \b \f \n \r \t \uXXXX` are decoded, surrogate pairs are combined. -/
def parseStringBody : List Char → Option (List Char × List Char)
  | [] => none
  | '"' :: rest => some ([], rest)
  | '\\' :: rest =>
    match rest with
    | '"' :: r => (parseStringBody r).map (fun p => ('"' :: p.1, p.2))
    | '\\' :: r => (parseStringBody r).map (fun p => ('\\' :: p.1, p.2))
    | '/' :: r => (parseStringBody r).map (fun p => ('/' :: p.1, p.2))
    | 'b' :: r => (parseStringBody r).map (fun p => ('\x08' :: p.1, p.2))
    | 'f' :: r => (parseStringBody r).map (fun p => ('\x0c' :: p.1, p.2))
    | 'n' :: r => (parseStringBody r).map (fun p => ('\n' :: p.1, p.2))
    | 'r' :: r => (parseStringBody r).map (fun p => ('\r' :: p.1, p.2))
    | 't' :: r => (parseStringBody r).map (fun p => ('\t' :: p.1, p.2))
    | 'u' :: h1 :: h2 :: h3 :: h4 :: r =>
      match hex4 h1 h2 h3 h4 with
      | none => none
      | some n =>
        if n < 0xd800 ∨ 0xe000 ≤ n then
          (parseStringBody r).map (fun p => (Char.ofNat n :: p.1, p.2))
        else if n < 0xdc00 then
          -- high surrogate: must be followed by a low surrogate escape
          match r with
          | '\\' :: 'u' :: g1 :: g2 :: g3 :: g4 :: r2 =>
            match hex4 g1 g2 g3 g4 with
            | none => none
            | some m =>
              if 0xdc00 ≤ m ∧ m < 0xe000 then
                (parseStringBody r2).map
                  (fun p => (Char.ofNat (0x10000 + (n - 0xd800) * 1024 + (m - 0xdc00)) :: p.1, p.2))
              else none
          | _ => none
        else none
    | _ => none
  | c :: rest =>
    if c.toNat < 32 then none
    else (parseStringBody rest).map (fun p => (c :: p.1, p.2))

/-- Split off a maximal run of decimal digits. -/
def spanDigits (s : List Char) : List Char × List Char :=
  (s.takeWhile Char.isDigit, s.dropWhile Char.isDigit)

/-- Parse the optional exponent part of a JSON number; `tok` is the token so far. -/
def afterExp (tok : List Char) : List Char → Option (Json × List Char)
  | [] => some (.num tok, [])
  | c :: r =>
    if c = 'e' ∨ c = 'E' then
      let signed : List Char × List Char :=
        match r with
        | '+' :: rr => (['+'], rr)
        | '-' :: rr => (['-'], rr)
        | _ => ([], r)
      match spanDigits signed.2 with
      | ([], _) => none
      | (ds, r3) => some (.num (tok ++ c :: signed.1 ++ ds), r3)
    else some (.num tok, c :: r)

/-- Parse the optional fraction part of a JSON number; `tok` is the integer token. -/
def afterInt (tok : List Char) : List Char → Option (Json × List Char)
  | '.' :: r =>
    (match spanDigits r with
     | ([], _) => none
     | (ds, r2) => afterExp (tok ++ '.' :: ds) r2)
  | s => afterExp tok s

/-- Parse a JSON number token (ECMA-404 grammar: `-? (0 | [1-9][0-9]*) frac? exp?`). -/
def parseNumber (s : List Char) : Option (Json × List Char) :=
  let signed : List Char × List Char :=
    match s with
    | '-' :: r => (['-'], r)
    | _ => ([], s)
  match signed.2 with
  | [] => none
  | c :: r =>
    if c = '0' then afterInt (signed.1 ++ ['0']) r
    else if c.isDigit then
      (match spanDigits r with
       | (ds, r2) => afterInt (signed.1 ++ c :: ds) r2)
    else none

mutual

/-- Parse one JSON value (after skipping leading whitespace), returning the
value and the unconsumed input.  `fuel` bounds the recursion; `jsonParse`
supplies more fuel than any input of its length can consume. -/
def parseValue : Nat → List Char → Option (Json × List Char)
  | 0, _ => none
  | fuel + 1, s =>
    match skipWs s with
    | 'n' :: 'u' :: 'l' :: 'l' :: rest => some (.null, rest)
    | 't' :: 'r' :: 'u' :: 'e' :: rest => some (.bool true, rest)
    | 'f' :: 'a' :: 'l' :: 's' :: 'e' :: rest => some (.bool false, rest)
    | '"' :: rest => (parseStringBody rest).map (fun p => (.str p.1, p.2))
    | '[' :: rest =>
      (match skipWs rest with
       | ']' :: r2 => some (.arr [], r2)
       | _ => (parseElems fuel rest).map (fun p => (.arr p.1, p.2)))
    | '\x7b' :: rest =>
      (match skipWs rest with
       | '\x7d' :: r2 => some (.obj [], r2)
       | _ => (parseMembers fuel rest).map (fun p => (.obj p.1, p.2)))
    | other => parseNumber other

/-- Parse a non-empty comma-separated list of array elements up to `]`. -/
def parseElems : Nat → List Char → Option (List Json × List Char)
  | 0, _ => none
  | fuel + 1, s => do
    let (v, r) ← parseValue fuel s
    match skipWs r with
    | ',' :: r2 => (parseElems fuel r2).map (fun p => (v :: p.1, p.2))
    | ']' :: r2 => some ([v], r2)
    | _ => none

/-- Parse a non-empty comma-separated list of object members up to `}`. -/
def parseMembers : Nat → List Char → Option (List (List Char × Json) × List Char)
  | 0, _ => none
  | fuel + 1, s =>
    match skipWs s with
    | '"' :: r => do
      let (key, r2) ← parseStringBody r
      match skipWs r2 with
      | ':' :: r3 => do
        let (v, r4) ← parseValue fuel r3
        match skipWs r4 with
        | ',' :: r5 => (parseMembers fuel r5).map (fun p => ((key, v) :: p.1, p.2))
        | '\x7d' :: r5 => some ([(key, v)], r5)
        | _ => none
      | _ => none
    | _ => none

end

/-- Model of `JSON.parse`: parse one value, allow trailing whitespace only.
`none` models a thrown `SyntaxError`. -/
def jsonParse (s : List Char) : Option Json :=
  match parseValue (4 * s.length + 16) s with
  | some (v, rest) => if skipWs rest = [] then some v else none
  | none => none

/-- Property lookup on the field list built by `JSON.parse`: for duplicate
keys the assignment performed last wins, as in JavaScript. -/
def lookupField (fields : List (List Char × Json)) (key : List Char) : Option Json :=
  match fields with
  | [] => none
  | kv :: rest =>
    match lookupField rest key with
    | some v => some v
    | none => if kv.1 = key then some kv.2 else none

/-- The three-dash delimiter of the response protocol. -/
def dashes : List Char := ['-', '-', '-']

/-- Prepend a character to the first piece of a split result. -/
def consHead (c : Char) : List (List Char) → List (List Char)
  | [] => [[c]]
  | h :: t => (c :: h) :: t

/-- Model of the JavaScript split of `text` at the three-dash separator: every non-overlapping
occurrence of the separator, scanning left to right.  The result is never
empty; a text without the separator yields the one-element list `[text]`. -/
def splitDashes : List Char → List (List Char)
  | [] => [[]]
  | [c] => [[c]]
  | [c, d] => [[c, d]]
  | c :: d :: e :: rest =>
    if c = '-' ∧ d = '-' ∧ e = '-' then [] :: splitDashes rest
    else consHead c (splitDashes (d :: e :: rest))

/-- Whitespace removed by JavaScript `String.prototype.trim` (ASCII part). -/
def isJsWs (c : Char) : Bool :=
  c = ' ' || c = '\t' || c = '\n' || c = '\r' || c = '\x0b' || c = '\x0c'

/-- Model of JavaScript `s.trim()`. -/
def jsTrim (s : List Char) : List Char :=
  ((s.dropWhile isJsWs).reverse.dropWhile isJsWs).reverse

/-- ASCII case mapping of JavaScript `toLowerCase` (the queries and keywords
the program compares are ASCII). -/
def lowerChar (c : Char) : Char :=
  if 65 ≤ c.toNat ∧ c.toNat ≤ 90 then Char.ofNat (c.toNat + 32) else c

/-- Model of JavaScript `s.toLowerCase()` on a character list. -/
def jsLower (s : List Char) : List Char := s.map lowerChar

/-- Model of JavaScript `hay.includes(needle)`: substring containment. -/
def containsSub (needle : List Char) : List Char → Bool
  | [] => needle.isEmpty
  | c :: rest => needle.isPrefixOf (c :: rest) || containsSub needle rest

/-- The object key `isSerious`. -/
def isSeriousKey : List Char := "isSerious".data

/-- The object key `suggestImmediateAction`. -/
def actionKey : List Char := "suggestImmediateAction".data

/-- Model of `const { isSerious, suggestImmediateAction } = JSON.parse(jsonPart)`
wrapped in the surrounding `try`:
* `none` argument models `JSON.parse` throwing a `SyntaxError`;
* destructuring `null` throws a `TypeError` (so the `catch` runs);
* destructuring any other value reads the two properties, which are
  `undefined` unless the value is an object carrying them. -/
def destructure : Option Json → Option (Option Json × Option Json)
  | none => none
  | some .null => none
  | some (.bool _) => some (none, none)
  | some (.num _) => some (none, none)
  | some (.str _) => some (none, none)
  | some (.arr _) => some (none, none)
  | some (.obj fs) => some (lookupField fs isSeriousKey, lookupField fs actionKey)

/-- The analyzer result object.  The TypeScript annotations promise booleans
and a string, but at runtime the fields hold whatever the code stores; the
model keeps the honest type: a JSON value or `undefined` for the flags, a
string or `undefined` for the explanation. -/
structure SymptomAnalysisOutput where
  isSerious : Option Json
  explanation : Option (List Char)
  suggestImmediateAction : Option Json

/-- The trimmed first piece of the three-dash split: the JSON segment. -/
def jsonSegment (text : List Char) : List Char :=
  jsTrim ((splitDashes text).headD [])

/-- The trimmed second piece of the three-dash split, `undefined` when the text
holds no delimiter: the markdown segment. -/
def markdownSegment (text : List Char) : Option (List Char) :=
  ((splitDashes text).map jsTrim)[1]?

/-- The response-parsing logic of `analyzeSymptoms` (`ai-helpers.ts`,
lines 69-89), as a function of the upstream response text:
split on the three-dash delimiter, trim the pieces, parse the first piece and
destructure the two flags; on any exception fall back to the keyword
heuristic over the lowercased full text, returning the full text as the
explanation. -/
def analyzeSymptomsParse (text : List Char) : SymptomAnalysisOutput :=
  match destructure (jsonParse (jsonSegment text)) with
  | some (f1, f2) =>
    { isSerious := f1, explanation := markdownSegment text, suggestImmediateAction := f2 }
  | none =>
    let lower := jsLower text
    { isSerious := some (.bool (containsSub "serious".data lower || containsSub "severe".data lower))
      explanation := some text
      suggestImmediateAction :=
        some (.bool (containsSub "immediate".data lower || containsSub "emergency".data lower)) }

/-- Input of `analyzeSymptoms` (`SymptomAnalysisInput` in `ai-helpers.ts`):
the symptom text and an optional photo data URI. -/
structure SymptomAnalysisInput where
  symptoms : String
  photoDataUri : Option String

/-- The fixed prompt text preceding the interpolated symptoms
(`ai-helpers.ts` lines 32-34). -/
def promptPrefix : String :=
  "As a medical expert, analyze these symptoms concisely and determine if they indicate a potentially serious condition requiring immediate attention.\n\nSymptoms: "

/-- The fixed prompt text following the interpolated symptoms
(`ai-helpers.ts` lines 34-63). -/
def promptSuffix : String :=
  "\n\nFirst, determine:\n1. If the condition is potentially serious (true/false)\n2. If immediate medical attention is recommended (true/false)\n\nThen, provide a brief explanation in this format:\n\n# Likely Cause\n[One clear sentence about the most likely cause]\n\n# What You Should Do\n- [One specific action recommendation]\n- [Any immediate steps to take at home, if applicable]\n\n# When to Seek Help\n- [1-2 specific warning signs that would require medical attention]\n\nKeep the explanation very concise and action-oriented. Use simple, clear language.\n\nYour response should be split into two parts:\n1. A JSON object with just the boolean flags:\n\x7b\n  \"isSerious\": boolean,\n  \"suggestImmediateAction\": boolean\n\x7d\n\n2. The markdown formatted explanation as plain text.\n\nSeparate these with three dashes (---) on a new line."

/-- The prompt assembled from the input (the template literal of
`ai-helpers.ts` lines 32-63): only `input.symptoms` is interpolated. -/
def buildPrompt (input : SymptomAnalysisInput) : String :=
  promptPrefix ++ input.symptoms ++ promptSuffix

/-- The full request content handed to the generation client:
`model.generateContent(prompt)` (`ai-helpers.ts` line 65) passes exactly one
argument, the prompt string.  The `photoDataUri` field of the input is never
read anywhere in the function, so no photo bytes reach the request.  (The
fixed generation configuration of lines 24-29 holds floating-point sampling
constants that carry no program logic and is omitted.) -/
def generateContentRequest (input : SymptomAnalysisInput) : String :=
  buildPrompt input

/-- The constructed client, holding the credential it was given. -/
structure GoogleGenerativeAI where
  apiKey : String

/-- Module initialisation of `ai-helpers.ts` (lines 3-7): if the
`NEXT_PUBLIC_GOOGLE_AI_API_KEY` environment value is absent (or empty, the
other falsy string) the module throws at load time; otherwise the client is
constructed from the key.  `Except.error` models the thrown error. -/
def moduleInit : Option String → Except String GoogleGenerativeAI
  | none => .error "GOOGLE_AI_API_KEY is not set"
  | some k => if k = "" then .error "GOOGLE_AI_API_KEY is not set" else .ok ⟨k⟩

/-- Model of `analyzeSymptoms` as a function of the constructed client, the input and
the text of the upstream response (the value of `response.text()`): the
request is `generateContentRequest input`, and the returned object is the
parse of the upstream text.  The client and the symptoms take no part in the
response parsing. -/
def analyzeSymptoms (_client : GoogleGenerativeAI) (_input : SymptomAnalysisInput)
    (upstreamText : List Char) : SymptomAnalysisOutput :=
  analyzeSymptomsParse upstreamText

/-- A practitioner record (`find-practitioners.ts`). -/
structure Practitioner where
  name : String
  specialty : String
  address : String
  phone : String
  isHospital : Bool
deriving DecidableEq

/-- Record `datasets.dublin[0]` of the dataset. -/
def dublin0 : Practitioner :=
  ⟨"Grand Canal Medical Clinic", "General Practitioner",
   "21 Grand Canal Street Upper, Dublin 4, D04", "+353 1 555 2143", false⟩

/-- Record `datasets.dublin[1]` of the dataset. -/
def dublin1 : Practitioner :=
  ⟨"St. Stephen\x27s Green Family Practice", "General Practitioner",
   "8 Harcourt Street, Dublin 2, D02", "+353 1 555 0087", false⟩

/-- Record `datasets.dublin[2]` of the dataset. -/
def dublin2 : Practitioner :=
  ⟨"Dublin City Cardiology Centre", "Cardiology",
   "45 Gardiner Street Upper, Dublin 1, D01", "+353 1 555 7321", false⟩

/-- Record `datasets.dublin[3]` of the dataset. -/
def dublin3 : Practitioner :=
  ⟨"Mater Misericordiae University Hospital", "Emergency & General Hospital",
   "Eccles St, Phibsborough, Dublin 7, D07", "+353 1 803 2000", true⟩

/-- Record `datasets.cork[0]` of the dataset. -/
def cork0 : Practitioner :=
  ⟨"Lee Side Family Practice", "General Practitioner",
   "14 Washington Street, Cork City, T12", "+353 21 555 6612", false⟩

/-- Record `datasets.cork[1]` of the dataset. -/
def cork1 : Practitioner :=
  ⟨"Cork Women\x27s Health Clinic", "Women\x27s Health",
   "3 Patrick\x27s Quay, Cork City, T12", "+353 21 555 7741", false⟩

/-- Record `datasets.cork[2]` of the dataset. -/
def cork2 : Practitioner :=
  ⟨"Cork University Hospital", "Emergency & General Hospital",
   "Wilton, Cork, T12", "+353 21 492 2000", true⟩

/-- Record `datasets.galway[0]` of the dataset. -/
def galway0 : Practitioner :=
  ⟨"Eyre Square Medical Practice", "General Practitioner",
   "12 Eyre Square, Galway, H91", "+353 91 555 1020", false⟩

/-- Record `datasets.galway[1]` of the dataset. -/
def galway1 : Practitioner :=
  ⟨"Galway Respiratory Clinic", "Respiratory Medicine",
   "College Rd, Galway, H91", "+353 91 555 3344", false⟩

/-- Record `datasets.galway[2]` of the dataset. -/
def galway2 : Practitioner :=
  ⟨"University Hospital Galway", "Emergency & General Hospital",
   "Newcastle Rd, Galway, H91", "+353 91 544 544", true⟩

/-- Group `datasets.dublin`, in declaration order. -/
def dublinList : List Practitioner := [dublin0, dublin1, dublin2, dublin3]

/-- Group `datasets.cork`, in declaration order. -/
def corkList : List Practitioner := [cork0, cork1, cork2]

/-- Group `datasets.galway`, in declaration order. -/
def galwayList : List Practitioner := [galway0, galway1, galway2]

/-- Result of `findPractitioners`. -/
structure FindPractitionersOutput where
  practitioners : List Practitioner
deriving DecidableEq

/-- The `pick` closure of `find-practitioners.ts` (lines 119-131) applied to
the lowercased location: first containment match among `dublin`, `cork`,
`galway`, else the default mixed sample
`[dublin[0], cork[0], galway[0], dublin[2], cork[2]]`. -/
def pickByLocation (location : List Char) : List Practitioner :=
  if containsSub "dublin".data location then dublinList
  else if containsSub "cork".data location then corkList
  else if containsSub "galway".data location then galwayList
  else [dublin0, cork0, galway0, dublin2, cork2]

/-- Defaulting of the query (`input.locationQuery` or the fallback Ireland):
`none` models an absent query and the
empty string is the one falsy string. -/
def orIreland : Option String → String
  | none => "Ireland"
  | some q => if q = "" then "Ireland" else q

/-- Model of `findPractitioners` (`find-practitioners.ts` lines 34-135): lowercase the
defaulted query and pick the dataset. -/
def findPractitioners (locationQuery : Option String) : FindPractitionersOutput :=
  ⟨pickByLocation (jsLower (orIreland locationQuery).data)⟩

/-- Model of `toLowerCase` applied to a whole string. -/
def jsLowerStr (s : String) : String := String.mk (jsLower s.data)

/-- Whether a stored field value is a runtime boolean. -/
def isBoolField : Option Json → Bool
  | some (.bool _) => true
  | _ => false

theorem containsSub_cons (n : List Char) (c : Char) (r : List Char) :
    containsSub n (c :: r) = (n.isPrefixOf (c :: r) || containsSub n r) := rfl

theorem splitDashes_cons_dash (rest : List Char) :
    splitDashes ('-' :: '-' :: '-' :: rest) = [] :: splitDashes rest := by
  rw [splitDashes]
  simp

theorem splitDashes_cons_step {c d e : Char} (rest : List Char)
    (hc : ¬(c = '-' ∧ d = '-' ∧ e = '-')) :
    splitDashes (c :: d :: e :: rest) = consHead c (splitDashes (d :: e :: rest)) := by
  rw [splitDashes, if_neg hc]

/-- A text without the delimiter is split into the one-piece list holding it. -/
theorem splitDashes_no_dash {s : List Char} (h : containsSub dashes s = false) :
    splitDashes s = [s] := by
  induction s using splitDashes.induct with
  | case1 => rfl
  | case2 c => rfl
  | case3 c d => rfl
  | case4 c d e rest hcond ih =>
    obtain ⟨hc, hd, he⟩ := hcond
    subst hc; subst hd; subst he
    rw [containsSub_cons] at h
    simp [dashes, List.isPrefixOf] at h
  | case5 c d e rest hcond ih =>
    have htail : containsSub dashes (d :: e :: rest) = false := by
      rw [containsSub_cons] at h
      exact (Bool.or_eq_false_iff.mp h).2
    rw [splitDashes_cons_step rest hcond, ih htail]
    rfl

/-- Splitting a text that starts with a piece whose leftmost delimiter
occurrence is the real separator: the piece becomes the first element.  The
hypothesis extends the piece by two dashes so that no occurrence may
straddle the boundary with the separator. -/
theorem splitDashes_append (rest : List Char) {a : List Char}
    (h : containsSub dashes (a ++ ['-', '-']) = false) :
    splitDashes (a ++ dashes ++ rest) = a :: splitDashes rest := by
  induction a with
  | nil =>
    show splitDashes ('-' :: '-' :: '-' :: rest) = [] :: splitDashes rest
    exact splitDashes_cons_dash rest
  | cons x a ih =>
    rw [List.cons_append, containsSub_cons] at h
    obtain ⟨hx, htail⟩ := Bool.or_eq_false_iff.mp h
    match a, htail, hx, ih with
    | [], htail, hx, ih =>
      have hxne : ¬(x = '-' ∧ '-' = '-' ∧ '-' = '-') := by
        simp [dashes, List.isPrefixOf] at hx
        intro ⟨h1, _, _⟩
        exact hx h1.symm
      show splitDashes (x :: '-' :: '-' :: '-' :: rest) = [x] :: splitDashes rest
      rw [splitDashes_cons_step _ hxne, splitDashes_cons_dash]
      rfl
    | [y], htail, hx, ih =>
      have hxy : ¬(x = '-' ∧ y = '-' ∧ '-' = '-') := by
        simp [dashes, List.isPrefixOf] at hx
        intro ⟨h1, h2, _⟩
        exact hx h1.symm h2.symm
      have hyne : ¬(y = '-' ∧ '-' = '-' ∧ '-' = '-') := by
        simp [containsSub, dashes, List.isPrefixOf] at htail
        intro ⟨h1, _, _⟩
        exact htail h1.symm
      show splitDashes (x :: y :: '-' :: '-' :: '-' :: rest) = [x, y] :: splitDashes rest
      rw [splitDashes_cons_step _ hxy, splitDashes_cons_step _ hyne, splitDashes_cons_dash]
      rfl
    | y :: z :: a2, htail, hx, ih =>
      have hxyz : ¬(x = '-' ∧ y = '-' ∧ z = '-') := by
        simp [dashes, List.isPrefixOf] at hx
        intro ⟨h1, h2, h3⟩
        exact hx h1.symm h2.symm h3.symm
      show splitDashes (x :: (((y :: z :: a2) ++ dashes) ++ rest)) =
        (x :: y :: z :: a2) :: splitDashes rest
      rw [show (((y :: z :: a2) ++ dashes) ++ rest) = y :: z :: ((a2 ++ dashes) ++ rest) by simp]
      rw [splitDashes_cons_step _ hxyz]
      have hres := ih htail
      rw [show ((y :: z :: a2) ++ dashes) ++ rest = y :: z :: ((a2 ++ dashes) ++ rest) by simp]
        at hres
      rw [hres]
      rfl

/-- Containment in a piece implies containment in any extension to the right. -/
theorem containsSub_append_left {n : List Char} (b : List Char) {a : List Char}
    (h : containsSub n a = true) : containsSub n (a ++ b) = true := by
  induction a with
  | nil =>
    have hn : n = [] := by simpa [containsSub] using h
    subst hn
    cases b with
    | nil => rfl
    | cons c r => simp [containsSub_cons, List.isPrefixOf]
  | cons x a ih =>
    rw [containsSub_cons] at h
    rw [List.cons_append, containsSub_cons]
    rcases Bool.or_eq_true_iff.mp h with h1 | h2
    · have hpre : n <+: (x :: a) := List.isPrefixOf_iff_prefix.mp h1
      have hpre2 : n <+: (x :: a) ++ b := hpre.trans (List.prefix_append _ _)
      rw [List.cons_append] at hpre2
      rw [List.isPrefixOf_iff_prefix.mpr hpre2]
      rfl
    · rw [ih h2]
      simp

theorem containsSub_prefix_false {n a : List Char} (b : List Char)
    (h : containsSub n (a ++ b) = false) : containsSub n a = false := by
  by_contra hc
  rw [Bool.not_eq_false] at hc
  rw [containsSub_append_left b hc] at h
  cases h

theorem toNat_ofNat_valid (n : Nat) (h : n.isValidChar) : (Char.ofNat n).toNat = n := by
  simp [Char.ofNat, h, Char.toNat, Char.ofNatAux, UInt32.toNat, BitVec.toNat_ofNatLt]

/-- The ASCII case mapping is idempotent. -/
theorem lowerChar_idem (c : Char) : lowerChar (lowerChar c) = lowerChar c := by
  unfold lowerChar
  by_cases h : 65 ≤ c.toNat ∧ c.toNat ≤ 90
  · rw [if_pos h]
    have hv : (c.toNat + 32).isValidChar := Or.inl (by omega)
    have ht := toNat_ofNat_valid _ hv
    rw [if_neg]
    intro hcon
    rw [ht] at hcon
    omega
  · rw [if_neg h]
    exact if_neg h

/-- Lowercasing is idempotent. -/
theorem jsLower_idem (s : List Char) : jsLower (jsLower s) = jsLower s := by
  unfold jsLower
  rw [List.map_map]
  exact List.map_congr_left (fun a _ => lowerChar_idem a)

/-- C1: for every upstream response text of the form json-segment, delimiter,
markdown-segment — the segments free of the delimiter (also across the
boundary) and the JSON segment parsing to an object whose `isSerious` and
`suggestImmediateAction` fields are booleans — `analyzeSymptoms` returns the
two parsed boolean values and an explanation equal to the trimmed markdown
segment. -/
theorem analyzeSymptoms_roundTrip (json md : List Char)
    (fs : List (List Char × Json)) (b1 b2 : Bool)
    (hj : containsSub dashes (json ++ ['-', '-']) = false)
    (hm : containsSub dashes md = false)
    (hp : jsonParse (jsTrim json) = some (.obj fs))
    (h1 : lookupField fs isSeriousKey = some (.bool b1))
    (h2 : lookupField fs actionKey = some (.bool b2)) :
    analyzeSymptomsParse (json ++ dashes ++ md) =
      { isSerious := some (.bool b1), explanation := some (jsTrim md),
        suggestImmediateAction := some (.bool b2) } := by
  have hsplit : splitDashes (json ++ dashes ++ md) = [json, md] := by
    rw [splitDashes_append md hj, splitDashes_no_dash hm]
  unfold analyzeSymptomsParse jsonSegment markdownSegment
  rw [hsplit]
  simp only [List.headD, List.map, List.getElem?_cons_succ, List.getElem?_cons_zero]
  rw [hp]
  simp only [destructure]
  rw [h1, h2]

/-- Witness for C1 at the mocked upstream response of the spec. -/
theorem analyzeSymptoms_roundTrip_witness :
    jsonParse (jsTrim "\x7b\"isSerious\":true,\"suggestImmediateAction\":false\x7d".data) =
      some (.obj [(isSeriousKey, .bool true), (actionKey, .bool false)]) ∧
    analyzeSymptomsParse
        ("\x7b\"isSerious\":true,\"suggestImmediateAction\":false\x7d".data ++ dashes ++
          "\n# Likely Cause\nMost likely a viral infection.".data) =
      { isSerious := some (.bool true),
        explanation := some (jsTrim "\n# Likely Cause\nMost likely a viral infection.".data),
        suggestImmediateAction := some (.bool false) } :=
  ⟨rfl,
    analyzeSymptoms_roundTrip _ _ [(isSeriousKey, .bool true), (actionKey, .bool false)]
      true false rfl rfl rfl rfl rfl⟩

/-- C2 as stated is false: on the successful parse path the stored flags are
whatever values the upstream JSON held.  At this input the JSON carries the
number `1` for `isSerious`, and the returned field is not a boolean. -/
theorem analyzeSymptoms_boolean_fields_counterexample :
    isBoolField ((analyzeSymptoms ⟨"key"⟩ ⟨"headache", none⟩
      "\x7b\"isSerious\":1,\"suggestImmediateAction\":2\x7d---All good".data).isSerious)
      = false := rfl

/-- C2 amended: on the fallback path — the JSON segment fails to parse or
parses to `null` — the returned flags are booleans and the explanation is
the full response text, non-empty whenever that text is non-empty. -/
theorem analyzeSymptoms_fallback_wellFormed (client : GoogleGenerativeAI)
    (sym : String) (photo : Option String) (text : List Char)
    (hsym : sym ≠ "")
    (hfail : destructure (jsonParse (jsonSegment text)) = none)
    (htext : text ≠ []) :
    (∃ b1 : Bool, (analyzeSymptoms client ⟨sym, photo⟩ text).isSerious = some (.bool b1)) ∧
    (∃ b2 : Bool,
      (analyzeSymptoms client ⟨sym, photo⟩ text).suggestImmediateAction = some (.bool b2)) ∧
    (analyzeSymptoms client ⟨sym, photo⟩ text).explanation = some text ∧ text ≠ [] := by
  unfold analyzeSymptoms analyzeSymptomsParse
  rw [hfail]
  exact ⟨⟨_, rfl⟩, ⟨_, rfl⟩, rfl, htext⟩

/-- Witness for the amended C2 at a non-JSON upstream response. -/
theorem analyzeSymptoms_fallback_wellFormed_witness :
    (∃ b1 : Bool, (analyzeSymptoms ⟨"key"⟩ ⟨"headache", none⟩
      "The upstream service returned garbage".data).isSerious = some (.bool b1)) ∧
    (∃ b2 : Bool, (analyzeSymptoms ⟨"key"⟩ ⟨"headache", none⟩
      "The upstream service returned garbage".data).suggestImmediateAction = some (.bool b2)) ∧
    (analyzeSymptoms ⟨"key"⟩ ⟨"headache", none⟩
      "The upstream service returned garbage".data).explanation =
        some "The upstream service returned garbage".data ∧
    "The upstream service returned garbage".data ≠ [] :=
  analyzeSymptoms_fallback_wellFormed ⟨"key"⟩ "headache" none _ (by decide) rfl (by decide)

/-- C3: whenever the `try` block fails — `JSON.parse` throws on the JSON
segment, or destructuring its `null` result throws — the result is the
keyword heuristic over the lowercased full text, with the full raw text as
the explanation. -/
theorem analyzeSymptoms_fallback_heuristic (text : List Char)
    (hfail : destructure (jsonParse (jsonSegment text)) = none) :
    analyzeSymptomsParse text =
      { isSerious := some (.bool (containsSub "serious".data (jsLower text) ||
          containsSub "severe".data (jsLower text)))
        explanation := some text
        suggestImmediateAction := some (.bool (containsSub "immediate".data (jsLower text) ||
          containsSub "emergency".data (jsLower text))) } := by
  unfold analyzeSymptomsParse
  rw [hfail]

/-- Witness for C3: a malformed response without a delimiter holding the word
`emergency` takes the fallback and sets `suggestImmediateAction`. -/
theorem analyzeSymptoms_fallback_heuristic_witness :
    destructure (jsonParse (jsonSegment "Call 999 now, this is an emergency".data)) = none ∧
    (analyzeSymptomsParse "Call 999 now, this is an emergency".data).suggestImmediateAction =
      some (.bool true) := by
  refine ⟨rfl, ?_⟩
  rw [analyzeSymptoms_fallback_heuristic "Call 999 now, this is an emergency".data rfl]
  rfl

/-- C4 as stated is false: the split is at every occurrence of the delimiter,
so with two delimiters the explanation is the trimmed middle segment, not
the whole remainder after the first delimiter. -/
theorem analyzeSymptoms_split_first_counterexample :
    (analyzeSymptomsParse
      "\x7b\"isSerious\":true,\"suggestImmediateAction\":false\x7d---Section A---Section B".data
      ).explanation ≠ some (jsTrim "Section A---Section B".data) := by
  decide

/-- C4 amended: the split is at every occurrence of the delimiter; on the
successful parse path the explanation is the trimmed segment between the
first and second occurrences when there are at least two, and the trimmed
remainder when the delimiter occurs once. -/
theorem analyzeSymptoms_split_all_occurrences (a b c : List Char)
    (pr : Option Json × Option Json)
    (ha : containsSub dashes (a ++ ['-', '-']) = false)
    (hb : containsSub dashes (b ++ ['-', '-']) = false)
    (hp : destructure (jsonParse (jsTrim a)) = some pr) :
    (analyzeSymptomsParse (a ++ dashes ++ (b ++ dashes ++ c))).explanation = some (jsTrim b) ∧
    (analyzeSymptomsParse (a ++ dashes ++ b)).explanation = some (jsTrim b) := by
  obtain ⟨f1, f2⟩ := pr
  have hb0 : containsSub dashes b = false := containsSub_prefix_false _ hb
  have hs1 : splitDashes (a ++ dashes ++ (b ++ dashes ++ c)) = a :: b :: splitDashes c := by
    rw [splitDashes_append _ ha, splitDashes_append _ hb]
  have hs2 : splitDashes (a ++ dashes ++ b) = [a, b] := by
    rw [splitDashes_append _ ha, splitDashes_no_dash hb0]
  constructor
  · unfold analyzeSymptomsParse jsonSegment markdownSegment
    rw [hs1]
    simp only [List.headD, List.map, List.getElem?_cons_succ, List.getElem?_cons_zero]
    rw [hp]
  · unfold analyzeSymptomsParse jsonSegment markdownSegment
    rw [hs2]
    simp only [List.headD, List.map, List.getElem?_cons_succ, List.getElem?_cons_zero]
    rw [hp]

/-- Witness for the amended C4 at a response with two delimiters. -/
theorem analyzeSymptoms_split_all_occurrences_witness :
    (analyzeSymptomsParse
      ("\x7b\"isSerious\":true,\"suggestImmediateAction\":false\x7d".data ++ dashes ++
        (" Heart attack ".data ++ dashes ++ "ignored tail".data))).explanation =
      some (jsTrim " Heart attack ".data) :=
  (analyzeSymptoms_split_all_occurrences
    "\x7b\"isSerious\":true,\"suggestImmediateAction\":false\x7d".data
    " Heart attack ".data "ignored tail".data
    (some (.bool true), some (.bool false)) rfl rfl rfl).1

/-- C5 is a code bug: `model.generateContent(prompt)` receives only the text
prompt interpolated from the symptoms; `photoDataUri` is never read, so the
request content is identical with and without a photo. -/
theorem generateContent_ignores_photo (sym : String) (photo : String) :
    generateContentRequest ⟨sym, some photo⟩ = generateContentRequest ⟨sym, none⟩ := rfl

/-- C6: the lowercased query is tested against `dublin`, `cork`, `galway` in
that priority order; a query containing `dublin` yields the Dublin group and
a query containing `cork` but not `dublin` yields the Cork group, each in
declared order. -/
theorem findPractitioners_city_priority :
    (∀ q : String, containsSub "dublin".data (jsLower q.data) = true →
        findPractitioners (some q) = ⟨dublinList⟩) ∧
    (∀ q : String, containsSub "cork".data (jsLower q.data) = true →
        containsSub "dublin".data (jsLower q.data) = false →
        findPractitioners (some q) = ⟨corkList⟩) := by
  constructor
  · intro q hq
    by_cases hq0 : q = ""
    · subst hq0
      exact absurd hq (by decide)
    · simp only [findPractitioners, orIreland, pickByLocation]
      simp [hq, hq0]
  · intro q hcork hdub
    by_cases hq0 : q = ""
    · subst hq0
      exact absurd hcork (by decide)
    · simp only [findPractitioners, orIreland, pickByLocation]
      simp [hcork, hdub, hq0]

/-- Witness for C6 at the two queries of the spec. -/
theorem findPractitioners_city_priority_witness :
    findPractitioners (some "Dublin, Ireland") = ⟨dublinList⟩ ∧
    findPractitioners (some "Cork") = ⟨corkList⟩ :=
  ⟨findPractitioners_city_priority.1 "Dublin, Ireland" (by decide),
    findPractitioners_city_priority.2 "Cork" (by decide) (by decide)⟩

/-- C7 as stated is false: the default list ends with `cork[2]`, the Cork
hospital, not with index 2 of the third (Galway) group, under either way of
reading the three group labels. -/
theorem findPractitioners_default_counterexample :
    (findPractitioners (some "Atlantis")).practitioners ≠
      [dublin0, cork0, galway0, dublin2, galway2] ∧
    (findPractitioners (some "Atlantis")).practitioners ≠
      [dublin0, galway0, cork0, dublin2, cork2] := by
  decide

/-- C7 amended: a query matching no city substring, the empty query and the
absent query all yield the default list `[dublin[0], cork[0], galway[0],
dublin[2], cork[2]]` — the last element taken from the Cork group. -/
theorem findPractitioners_default_composition :
    (∀ q : String,
        containsSub "dublin".data (jsLower q.data) = false →
        containsSub "cork".data (jsLower q.data) = false →
        containsSub "galway".data (jsLower q.data) = false →
        findPractitioners (some q) = ⟨[dublin0, cork0, galway0, dublin2, cork2]⟩) ∧
    findPractitioners (some "") = ⟨[dublin0, cork0, galway0, dublin2, cork2]⟩ ∧
    findPractitioners none = ⟨[dublin0, cork0, galway0, dublin2, cork2]⟩ := by
  refine ⟨?_, by decide, by decide⟩
  intro q hd hc hg
  by_cases hq0 : q = ""
  · subst hq0
    decide
  · simp only [findPractitioners, orIreland, pickByLocation]
    simp [hd, hc, hg, hq0]

/-- Witness for the amended C7 at the no-match query of the spec. -/
theorem findPractitioners_default_composition_witness :
    findPractitioners (some "Atlantis") = ⟨[dublin0, cork0, galway0, dublin2, cork2]⟩ :=
  findPractitioners_default_composition.1 "Atlantis" (by decide) (by decide) (by decide)

/-- C8: the lookup is a pure function of the lowercased query — it is a
total Lean function (deterministic, no state), and lowercasing the query
first does not change the result. -/
theorem findPractitioners_lowercase_invariant (q : String) :
    findPractitioners (some (jsLowerStr q)) = findPractitioners (some q) := by
  by_cases hq : q = ""
  · subst hq
    rfl
  · have hlq : jsLowerStr q ≠ "" := by
      intro hcon
      have hdata := congrArg String.data hcon
      simp only [jsLowerStr] at hdata
      exact hq (String.ext (List.map_eq_nil_iff.mp hdata))
    simp only [findPractitioners, orIreland]
    rw [if_neg hq, if_neg hlq]
    have hdd : (jsLowerStr q).data = jsLower q.data := rfl
    rw [hdd, jsLower_idem]

/-- C9: a missing credential is a module-load failure, and any constructed
client carries the non-empty credential it was initialised with, so no
analysis call happens without one. -/
theorem moduleInit_requires_api_key :
    moduleInit none = .error "GOOGLE_AI_API_KEY is not set" ∧
    (∀ (key : Option String) (client : GoogleGenerativeAI),
        moduleInit key = .ok client → key = some client.apiKey ∧ client.apiKey ≠ "") := by
  refine ⟨rfl, ?_⟩
  intro key client h
  match key with
  | none => cases h
  | some k =>
    simp only [moduleInit] at h
    by_cases hk : k = ""
    · rw [if_pos hk] at h
      cases h
    · rw [if_neg hk] at h
      cases h
      exact ⟨rfl, hk⟩

/-- Witness for C9 at a present key. -/
theorem moduleInit_requires_api_key_witness :
    moduleInit none = .error "GOOGLE_AI_API_KEY is not set" ∧
    (some "test-key" = some (GoogleGenerativeAI.mk "test-key").apiKey ∧
      (GoogleGenerativeAI.mk "test-key").apiKey ≠ "") :=
  ⟨moduleInit_requires_api_key.1,
    moduleInit_requires_api_key.2 (some "test-key") ⟨"test-key"⟩ rfl⟩

/-- C10: a response without any delimiter whose whole trimmed text parses as
a JSON object carrying both fields takes the successful path — no keyword
fallback — and the explanation is `undefined`, not the raw text. -/
theorem analyzeSymptoms_json_without_delimiter (text : List Char)
    (fs : List (List Char × Json)) (v1 v2 : Json)
    (hnd : containsSub dashes text = false)
    (hp : jsonParse (jsTrim text) = some (.obj fs))
    (h1 : lookupField fs isSeriousKey = some v1)
    (h2 : lookupField fs actionKey = some v2) :
    analyzeSymptomsParse text =
      { isSerious := some v1, explanation := none, suggestImmediateAction := some v2 } := by
  have hsplit : splitDashes text = [text] := splitDashes_no_dash hnd
  unfold analyzeSymptomsParse jsonSegment markdownSegment
  rw [hsplit]
  simp only [List.headD, List.map, List.getElem?_cons_succ, List.getElem?_nil]
  rw [hp]
  simp only [destructure]
  rw [h1, h2]

/-- Witness for C10 at a delimiter-free JSON-object response. -/
theorem analyzeSymptoms_json_without_delimiter_witness :
    containsSub dashes "\x7b\"isSerious\":false,\"suggestImmediateAction\":true\x7d".data = false ∧
    analyzeSymptomsParse "\x7b\"isSerious\":false,\"suggestImmediateAction\":true\x7d".data =
      { isSerious := some (.bool false), explanation := none,
        suggestImmediateAction := some (.bool true) } :=
  ⟨rfl,
    analyzeSymptoms_json_without_delimiter _
      [(isSeriousKey, .bool false), (actionKey, .bool true)]
      (.bool false) (.bool true) rfl rfl rfl rfl⟩

end EmeraldHealth
